import Mathlib

/-!
Verification development for the `norkyst.github.io` example scripts
(`examples/timeseries.py` and `examples/example_thredds.py`).

The development has two layers:

* a numeric model of the derived-quantity computations of
  `timeseries.py` (lines 137 and 143), with the remote dataset's
  velocity and wind fields modelled as real-valued functions of their
  integer indices and the numpy elementwise operations modelled as
  pointwise operations on time-series vectors;

* a statement-level embedding of both scripts as lists of statements,
  each statement recording the names it binds, the names it references,
  and the library operations it performs in evaluation order, together
  with a small operational semantics (sequential execution with name
  resolution, an oracle for the behaviour of the external libraries and
  of the remote dataset, and propagation of errors).
-/

/-! ## Numeric model of the derived-quantity computations -/

/-- The fields of the remote dataset that the speed computations of
`timeseries.py` read.  A 4-d variable is indexed `(time, depth, Y, X)`
and a 3-d variable `(time, Y, X)`, matching the subscript order used by
the script. -/
structure Dataset where
  u_eastward : ℕ → ℕ → ℕ → ℕ → ℝ
  v_northward : ℕ → ℕ → ℕ → ℕ → ℝ
  Uwind_eastward : ℕ → ℕ → ℕ → ℝ
  Vwind_northward : ℕ → ℕ → ℕ → ℝ

/-- A time series selected by the slice `[0:100, ...]`: one real value
per time step `t < 100`. -/
def Vec : Type := Fin 100 → ℝ

/-- Elementwise `np.sqrt`. -/
noncomputable def npSqrt (a : Vec) : Vec := fun t => Real.sqrt (a t)

/-- Elementwise `**` with a natural exponent. -/
def npPow (a : Vec) (k : ℕ) : Vec := fun t => (a t) ^ k

/-- Elementwise `+`. -/
def npAdd (a b : Vec) : Vec := fun t => a t + b t

/-- The slice `var[0:100, d, y, x]` of a 4-d variable. -/
def slice4 (var : ℕ → ℕ → ℕ → ℕ → ℝ) (d y x : ℕ) : Vec :=
  fun t => var t.val d y x

/-- The slice `var[0:100, y, x]` of a 3-d variable. -/
def slice3 (var : ℕ → ℕ → ℕ → ℝ) (y x : ℕ) : Vec :=
  fun t => var t.val y x

/-- `timeseries.py`, line 137:
`current_speed = np.sqrt(ds.u_eastward[0:100, 0, y_idx, x_idx]**2 +
ds.v_northward[0:100, 0, y_idx, x_idx]**2)`. -/
noncomputable def current_speed (ds : Dataset) (y_idx x_idx : ℕ) : Vec :=
  npSqrt (npAdd (npPow (slice4 ds.u_eastward 0 y_idx x_idx) 2)
                (npPow (slice4 ds.v_northward 0 y_idx x_idx) 2))

/-- `timeseries.py`, line 143:
`wind_speed = np.sqrt(ds.Uwind_eastward[0:100, y_idx, x_idx]**2 +
ds.Vwind_northward[0:100, y_idx, x_idx]**2)`. -/
noncomputable def wind_speed (ds : Dataset) (y_idx x_idx : ℕ) : Vec :=
  npSqrt (npAdd (npPow (slice3 ds.Uwind_eastward y_idx x_idx) 2)
                (npPow (slice3 ds.Vwind_northward y_idx x_idx) 2))

/-- The magnitude `√(u² + v²)` dominates `|u|` and `|v|` and is
nonnegative. -/
theorem sqrt_sum_sq_props (u v : ℝ) :
    0 ≤ Real.sqrt (u ^ 2 + v ^ 2) ∧
    |u| ≤ Real.sqrt (u ^ 2 + v ^ 2) ∧
    |v| ≤ Real.sqrt (u ^ 2 + v ^ 2) := by
  refine ⟨Real.sqrt_nonneg _, ?_, ?_⟩
  · rw [← Real.sqrt_sq_eq_abs]
    exact Real.sqrt_le_sqrt (by nlinarith [sq_nonneg v])
  · rw [← Real.sqrt_sq_eq_abs]
    exact Real.sqrt_le_sqrt (by nlinarith [sq_nonneg u])

/-- C1: at every selected sample (time step `t` among the first 100,
depth level 0, grid indices `y_idx`, `x_idx`), `current_speed` is the
square root of the sum of squares of `u_eastward` and `v_northward`
there, and `wind_speed` is the square root of the sum of squares of
`Uwind_eastward` and `Vwind_northward` there. -/
theorem current_and_wind_speed_eq_sqrt_sum_sq
    (ds : Dataset) (y_idx x_idx : ℕ) (t : Fin 100) :
    current_speed ds y_idx x_idx t =
      Real.sqrt (ds.u_eastward t.val 0 y_idx x_idx ^ 2 +
                 ds.v_northward t.val 0 y_idx x_idx ^ 2) ∧
    wind_speed ds y_idx x_idx t =
      Real.sqrt (ds.Uwind_eastward t.val y_idx x_idx ^ 2 +
                 ds.Vwind_northward t.val y_idx x_idx ^ 2) :=
  ⟨rfl, rfl⟩

/-- C10: at every sample, `current_speed` and `wind_speed` are
nonnegative and dominate the absolute value of each of their two input
components. -/
theorem speed_nonneg_and_dominates_components
    (ds : Dataset) (y_idx x_idx : ℕ) (t : Fin 100) :
    (0 ≤ current_speed ds y_idx x_idx t ∧
     |ds.u_eastward t.val 0 y_idx x_idx| ≤ current_speed ds y_idx x_idx t ∧
     |ds.v_northward t.val 0 y_idx x_idx| ≤ current_speed ds y_idx x_idx t) ∧
    (0 ≤ wind_speed ds y_idx x_idx t ∧
     |ds.Uwind_eastward t.val y_idx x_idx| ≤ wind_speed ds y_idx x_idx t ∧
     |ds.Vwind_northward t.val y_idx x_idx| ≤ wind_speed ds y_idx x_idx t) :=
  ⟨sqrt_sum_sq_props _ _, sqrt_sum_sq_props _ _⟩

/-! ## Statement-level embedding of the scripts -/

/-- A subscript position in a dataset indexing expression, e.g.
`ds.temperature[0:100, 0, y_idx, x_idx]`. -/
inductive Idx where
  | int (n : ℤ)
  | slice (a b : ℤ)
  | sliceAll
  | yIdxRef
  | xIdxRef
deriving DecidableEq, Repr

/-- A library operation performed by a statement, in evaluation order.
`readVar v idx` is an access `ds.<v>[idx]` (with `idx = []` when the
variable is accessed without subscripts); `iselOp` is a `.isel(...)`
label-based index selection; `cfAccess a` is a `.cf[a]` lookup of the
dataset variable carrying the CF attribute `a`; `argsel2d lonV latV src
i j b1 b2` is the external nearest-grid-point call
`xroms.argsel2d(ds.<lonV>, ds.<latV>, <src>[i], <src>[j])` whose two
results are bound, in order, to `b1` and `b2`; `mutateVar v` would be a
write to dataset variable `v` (no script contains one). -/
inductive Op where
  | openDataset (url : String)
  | readVar (v : String) (idx : List Idx)
  | iselOp (args : List (String × Idx))
  | cfAccess (attr : String)
  | argsel2d (lonV latV src : String) (i j : ℕ) (b1 b2 : String)
  | mutateVar (v : String)
  | figOp
  | plotOp
  | printOp
  | sqrtOp
  | squareOp
  | addOp
  | otherOp
deriving DecidableEq, Repr

/-- The control-flow kind of a top-level statement.  Both scripts
consist exclusively of `plain` statements. -/
inductive SKind where
  | plain
  | branch
  | loop
  | tryExcept
  | funcDef
deriving DecidableEq, Repr

/-- One top-level Python statement: the source line it starts on, the
names it binds, the script-level names it references, the library
operations it performs in evaluation order, its control-flow kind, and
the numeric list literal it assigns, when it assigns one. -/
structure Stmt where
  line : ℕ
  binds : List String := []
  uses : List String := []
  ops : List Op := []
  kind : SKind := .plain
  listLit : Option (List ℚ) := none
deriving DecidableEq, Repr

/-- The OPENDAP URL opened by `timeseries.py` (line 34). -/
def timeseriesUrl : String :=
  "https://thredds.met.no/thredds/dodsC/fou-hi/norkystv3_800m_m00_be"

/-- The OPENDAP URL opened by `example_thredds.py` (line 14). -/
def exampleThreddsUrl : String :=
  "https://thredds.met.no/thredds/dodsC/sea/norkyst800m/1h/aggregate_be"

/-- `examples/timeseries.py`, one entry per top-level statement, in
source order. -/
def timeseriesScript : List Stmt := [
  { line := 17, binds := ["np"] },
  { line := 18, binds := ["plt"] },
  { line := 19, binds := ["ccrs"] },
  { line := 20, binds := ["cfeature"] },
  { line := 21, binds := ["LONGITUDE_FORMATTER", "LATITUDE_FORMATTER"] },
  { line := 22, binds := ["xr"] },
  { line := 34, binds := ["path"] },
  { line := 37, binds := ["ds"], uses := ["xr", "path"],
    ops := [.openDataset timeseriesUrl] },
  { line := 40, uses := ["ds"] },
  { line := 46, uses := ["ds"],
    ops := [.readVar "temperature" [],
            .iselOp [("time", .slice 0 100), ("X", .int 1000),
                     ("Y", .int 1000), ("depth", .int 0)],
            .plotOp] },
  { line := 53, binds := ["loc"], listLit := some [12.72, 68.35] },
  { line := 60, binds := ["y_idx", "x_idx"], uses := ["xroms", "ds", "loc"],
    ops := [.readVar "lon" [], .readVar "lat" [],
            .argsel2d "lon" "lat" "loc" 0 1 "y_idx" "x_idx"] },
  { line := 66, uses := ["loc"], ops := [.printOp] },
  { line := 67, ops := [.printOp] },
  { line := 68, uses := ["loc", "ds", "y_idx", "x_idx"],
    ops := [.readVar "lon" [.yIdxRef, .xIdxRef],
            .readVar "lat" [.yIdxRef, .xIdxRef], .printOp] },
  { line := 74, binds := ["fig", "ax"], uses := ["plt", "ccrs"],
    ops := [.figOp] },
  { line := 77, uses := ["ds", "ax", "ccrs"],
    ops := [.readVar "temperature" [.int 0, .int 0, .sliceAll, .sliceAll],
            .plotOp] },
  { line := 78, uses := ["ax"], ops := [.otherOp] },
  { line := 80, uses := ["ax", "ds", "y_idx", "x_idx", "ccrs"],
    ops := [.readVar "lon" [.yIdxRef, .xIdxRef],
            .readVar "lat" [.yIdxRef, .xIdxRef], .plotOp] },
  { line := 85, binds := ["gl"], uses := ["ax", "ccrs"], ops := [.otherOp] },
  { line := 86, uses := ["gl", "LONGITUDE_FORMATTER"], ops := [.otherOp] },
  { line := 87, uses := ["gl", "LATITUDE_FORMATTER"], ops := [.otherOp] },
  { line := 88, uses := ["gl"], ops := [.otherOp] },
  { line := 89, uses := ["gl"], ops := [.otherOp] },
  { line := 92, binds := ["land"], uses := ["cfeature"], ops := [.otherOp] },
  { line := 93, binds := ["coastline"], uses := ["cfeature"],
    ops := [.otherOp] },
  { line := 94, binds := ["borders"], uses := ["cfeature"],
    ops := [.otherOp] },
  { line := 96, uses := ["ax", "land"], ops := [.otherOp] },
  { line := 97, uses := ["ax", "coastline"], ops := [.otherOp] },
  { line := 98, uses := ["ax", "borders"], ops := [.otherOp] },
  { line := 100, uses := ["fig"], ops := [.otherOp] },
  { line := 108, binds := ["fig", "ax"], uses := ["plt"], ops := [.figOp] },
  { line := 111, uses := ["ds", "y_idx", "x_idx", "ax"],
    ops := [.readVar "temperature"
              [.slice 0 100, .int 0, .yIdxRef, .xIdxRef], .plotOp] },
  { line := 112, uses := ["ax"], ops := [.otherOp] },
  { line := 113, uses := ["ax"], ops := [.otherOp] },
  { line := 115, binds := ["ax1"], uses := ["ax"], ops := [.otherOp] },
  { line := 118, uses := ["ds", "y_idx", "x_idx", "ax1"],
    ops := [.readVar "salinity"
              [.slice 0 100, .int 0, .yIdxRef, .xIdxRef], .plotOp] },
  { line := 119, uses := ["ax1"], ops := [.otherOp] },
  { line := 120, uses := ["ax1"], ops := [.otherOp] },
  { line := 123, uses := ["ax"], ops := [.otherOp] },
  { line := 124, uses := ["ax1"], ops := [.otherOp] },
  { line := 126, uses := ["fig", "ds", "y_idx", "x_idx"],
    ops := [.readVar "lat" [.yIdxRef, .xIdxRef],
            .readVar "lon" [.yIdxRef, .xIdxRef], .otherOp] },
  { line := 137, binds := ["current_speed"],
    uses := ["np", "ds", "y_idx", "x_idx"],
    ops := [.readVar "u_eastward"
              [.slice 0 100, .int 0, .yIdxRef, .xIdxRef], .squareOp,
            .readVar "v_northward"
              [.slice 0 100, .int 0, .yIdxRef, .xIdxRef], .squareOp,
            .addOp, .sqrtOp] },
  { line := 143, binds := ["wind_speed"],
    uses := ["np", "ds", "y_idx", "x_idx"],
    ops := [.readVar "Uwind_eastward"
              [.slice 0 100, .yIdxRef, .xIdxRef], .squareOp,
            .readVar "Vwind_northward"
              [.slice 0 100, .yIdxRef, .xIdxRef], .squareOp,
            .addOp, .sqrtOp] },
  { line := 146, binds := ["fig", "ax"], uses := ["plt"], ops := [.figOp] },
  { line := 148, binds := ["line0"], uses := ["current_speed", "ax"],
    ops := [.plotOp] },
  { line := 149, uses := ["ax"], ops := [.otherOp] },
  { line := 150, uses := ["ax"], ops := [.otherOp] },
  { line := 152, binds := ["ax1"], uses := ["ax"], ops := [.otherOp] },
  { line := 153, uses := ["ax"], ops := [.otherOp] },
  { line := 155, binds := ["line1"], uses := ["wind_speed", "ax1"],
    ops := [.plotOp] },
  { line := 156, uses := ["ax1"], ops := [.otherOp] },
  { line := 157, uses := ["ax1"], ops := [.otherOp] },
  { line := 159, binds := ["lines"], uses := ["line0", "line1"] },
  { line := 160, binds := ["labels"], uses := ["lines"] },
  { line := 161, uses := ["ax", "lines", "labels"], ops := [.otherOp] }]

/-- `examples/example_thredds.py`, one entry per top-level statement,
in source order. -/
def exampleThreddsScript : List Stmt := [
  { line := 6, binds := ["xr"] },
  { line := 7, binds := ["_"] },
  { line := 8, binds := ["pyproj"] },
  { line := 9, binds := ["plt"] },
  { line := 10, binds := ["ccrs"] },
  { line := 14, binds := ["nk"], uses := ["xr"],
    ops := [.openDataset exampleThreddsUrl] },
  { line := 16, uses := ["nk"], ops := [.printOp] },
  { line := 20, binds := ["gm"], uses := ["nk"],
    ops := [.cfAccess "grid_mapping"] },
  { line := 21, binds := ["nk_crs"], uses := ["pyproj", "gm"],
    ops := [.otherOp] },
  { line := 22, uses := ["nk_crs"], ops := [.printOp] },
  { line := 25, binds := ["ncrs"], uses := ["ccrs"], ops := [.otherOp] },
  { line := 32, uses := ["plt", "ncrs"], ops := [.figOp] },
  { line := 34, uses := ["nk", "ncrs"],
    ops := [.iselOp [("time", .int (-1)), ("depth", .int 0)],
            .readVar "v_northward" [], .plotOp] },
  { line := 37, uses := ["plt", "ccrs"], ops := [.plotOp] },
  { line := 44, uses := ["plt"], ops := [.otherOp] },
  { line := 45, uses := ["plt"], ops := [.plotOp] }]

/-! ## Operational semantics -/

/-- A runtime value.  The claims under study never depend on the shape
of values, only on their flow, so values are kept coarse: a unit value,
a rational, a string, or a tuple of values. -/
inductive Val where
  | unit
  | num (q : ℚ)
  | str (s : String)
  | box (vs : List Val)

/-- A runtime failure: a `NameError` for an unbound script-level name,
or an opaque failure raised by an underlying library call. -/
inductive Err where
  | nameError (n : String)
  | libError (code : ℕ)
deriving DecidableEq, Repr

/-- The behaviour of the underlying libraries and of the remote
dataset: each library operation either produces a value or raises a
failure.  Two runs over the same dataset contents share one oracle. -/
def Oracle : Type := Op → Except Err Val

/-- The script-visible execution state: the environment of bound
script-level names, and the list of writes the script has applied to
the opened dataset (`[]` as long as the dataset is untouched). -/
structure Config where
  env : List (String × Val) := []
  dsWrites : List (String × Val) := []

/-- Execute one library operation.  A `mutateVar` records a write to
the dataset; a `readVar` is answered by a previous script write when
one exists and by the oracle (the remote dataset) otherwise; every
other operation is answered by the oracle and leaves the state
unchanged. -/
def execOp (o : Oracle) (c : Config) : Op → Except Err (Val × Config)
  | .mutateVar v =>
      .ok (.unit, { c with dsWrites := (v, .unit) :: c.dsWrites })
  | .readVar v idx =>
      match c.dsWrites.lookup v with
      | some w => .ok (w, c)
      | none => (o (.readVar v idx)).map (fun w => (w, c))
  | op => (o op).map (fun w => (w, c))

/-- Execute a statement's operations left to right, accumulating their
values; the first failure stops the sequence and is returned with the
state reached so far. -/
def runOps (o : Oracle) : List Op → Config → List Val →
    Config × Option Err × List Val
  | [], c, acc => (c, none, acc)
  | op :: rest, c, acc =>
      match execOp o c op with
      | .ok (v, c') => runOps o rest c' (acc ++ [v])
      | .error e => (c, some e, acc)

/-- The first name a statement references that is not bound in the
environment, if any: Python raises `NameError` on it. -/
def firstUnbound (env : List (String × Val)) (uses : List String) :
    Option String :=
  uses.find? (fun n => (env.lookup n).isNone)

/-- Bind each assignment target of a statement to the tuple of values
its operations produced. -/
def bindAll (binds : List String) (vals : List Val)
    (env : List (String × Val)) : List (String × Val) :=
  binds.foldl (fun e b => (b, Val.box vals) :: e) env

/-- Execute one statement: resolve the referenced names (failing with a
`NameError` on the first unbound one), run its operations, then bind
its targets.  A `tryExcept` statement would swallow a failure of its
operations; every other kind propagates it unchanged. -/
def execStmt (o : Oracle) (c : Config) (s : Stmt) : Config × Option Err :=
  match firstUnbound c.env s.uses with
  | some n => (c, some (.nameError n))
  | none =>
      match runOps o s.ops c [] with
      | (c', some e, _) =>
          if s.kind = .tryExcept then (c', none) else (c', some e)
      | (c', none, vals) =>
          ({ c' with env := bindAll s.binds vals c'.env }, none)

/-- Execute the statements of a script in order, stopping at the first
statement that fails. -/
def runStmts (o : Oracle) : List Stmt → Config → Config × Option Err
  | [], c => (c, none)
  | s :: rest, c =>
      match execStmt o c s with
      | (c', none) => runStmts o rest c'
      | (c', some e) => (c', some e)

/-- Big-step execution as a relation: `RunsTo o ss c r` holds when one
run of the statements `ss` from state `c` ends in the state-and-error
outcome `r`. -/
inductive RunsTo (o : Oracle) : List Stmt → Config → Config × Option Err → Prop
  | nil (c : Config) : RunsTo o [] c (c, none)
  | consOk {s : Stmt} {rest : List Stmt} {c c' : Config}
      {r : Config × Option Err} :
      execStmt o c s = (c', none) → RunsTo o rest c' r →
      RunsTo o (s :: rest) c r
  | consErr {s : Stmt} {rest : List Stmt} {c c' : Config} {e : Err} :
      execStmt o c s = (c', some e) →
      RunsTo o (s :: rest) c (c', some e)

/-- The functional semantics is a run. -/
theorem runStmts_runsTo (o : Oracle) :
    ∀ (ss : List Stmt) (c : Config), RunsTo o ss c (runStmts o ss c)
  | [], c => by simpa [runStmts] using RunsTo.nil c
  | s :: rest, c => by
      rcases h : execStmt o c s with ⟨c', err⟩
      cases err with
      | none =>
          have tail := runStmts_runsTo o rest c'
          rw [runStmts, h]
          exact RunsTo.consOk h tail
      | some e =>
          rw [runStmts, h]
          exact RunsTo.consErr h

/-- Any two runs of the same statements from the same state over the
same oracle end in the same outcome. -/
theorem runsTo_det (o : Oracle) :
    ∀ {ss : List Stmt} {c : Config} {r1 r2 : Config × Option Err},
      RunsTo o ss c r1 → RunsTo o ss c r2 → r1 = r2 := by
  intro ss
  induction ss with
  | nil =>
      intro c r1 r2 h1 h2
      cases h1; cases h2; rfl
  | cons s rest ih =>
      intro c r1 r2 h1 h2
      cases h1 with
      | consOk e1 t1 =>
          cases h2 with
          | consOk e2 t2 =>
              rw [e1] at e2
              cases e2
              exact ih t1 t2
          | consErr e2 =>
              rw [e1] at e2
              cases e2
      | consErr e1 =>
          cases h2 with
          | consOk e2 t2 =>
              rw [e1] at e2
              cases e2
          | consErr e2 =>
              rw [e1] at e2
              cases e2
              rfl

/-! ## Static analysis of the embedded scripts -/

/-- All library operations of a script, in evaluation order. -/
def allOps (ss : List Stmt) : List Op := (ss.map Stmt.ops).flatten

/-- The URLs passed to `xr.open_dataset`, in order. -/
def openUrls (ss : List Stmt) : List String :=
  (allOps ss).filterMap (fun op =>
    match op with
    | .openDataset u => some u
    | _ => none)

/-- The nearest-grid-point calls of a script, in order. -/
def argselCalls (ss : List Stmt) : List Op :=
  (allOps ss).filter (fun op =>
    match op with
    | .argsel2d _ _ _ _ _ _ _ => true
    | _ => false)

/-- Whether a subscript list mentions `y_idx` or `x_idx`. -/
def usesLocIdx (idx : List Idx) : Bool :=
  idx.contains .yIdxRef || idx.contains .xIdxRef

/-- Whether a subscript list ends in `..., y_idx, x_idx`. -/
def endsYX (idx : List Idx) : Bool :=
  match idx.reverse with
  | .xIdxRef :: .yIdxRef :: _ => true
  | _ => false

/-- A dataset access that mentions the found location uses `y_idx` and
`x_idx` exactly once each, as its two trailing subscripts, in the order
`[y_idx, x_idx]`.  Accesses that do not mention the location pass
vacuously. -/
def locAccessOrdered (op : Op) : Bool :=
  match op with
  | .readVar _ idx =>
      if usesLocIdx idx then
        idx.count .yIdxRef == 1 && idx.count .xIdxRef == 1 && endsYX idx
      else true
  | _ => true

/-- Whether an operation mentions `y_idx` or `x_idx` at all. -/
def mentionsLocIdx (op : Op) : Bool :=
  match op with
  | .readVar _ idx => usesLocIdx idx
  | _ => false

/-- A dataset variable access: by its name, or through the CF accessor
by a CF attribute. -/
inductive VarAccess where
  | named (v : String)
  | viaCF (attr : String)
deriving DecidableEq, Repr

/-- The dataset variables an operation accesses. -/
def accessesOfOp : Op → List VarAccess
  | .readVar v _ => [.named v]
  | .iselOp args => args.map (fun a => .named a.1)
  | .cfAccess a => [.viaCF a]
  | .argsel2d lonV latV _ _ _ _ _ => [.named lonV, .named latV]
  | _ => []

/-- All dataset variables a script accesses (with repetition). -/
def accessedVars (ss : List Stmt) : List VarAccess :=
  ((allOps ss).map accessesOfOp).flatten

/-- The variables claim C7 names: the temperature, salinity, current
and wind components, and the depth, time and spatial coordinate axes. -/
def claimedVars : List VarAccess :=
  [.named "temperature", .named "salinity",
   .named "u_eastward", .named "v_northward",
   .named "Uwind_eastward", .named "Vwind_northward",
   .named "depth", .named "time",
   .named "lon", .named "lat", .named "X", .named "Y"]

/-- The execution phase of an operation, for the
open-select-compute-plot ordering of the spec.  Attribute reads,
figure/axes setup, printing and cosmetic calls belong to no phase. -/
inductive Phase where
  | openPh
  | selectPh
  | computePh
  | plotPh
  | otherPh
deriving DecidableEq, Repr

/-- Classify an operation: opening the dataset; index selection
(subscripted reads, `.isel`, the nearest-point call); derived-quantity
arithmetic; plotting. -/
def phaseOf : Op → Phase
  | .openDataset _ => .openPh
  | .readVar _ idx => if idx.isEmpty then .otherPh else .selectPh
  | .iselOp _ => .selectPh
  | .argsel2d _ _ _ _ _ _ _ => .selectPh
  | .sqrtOp => .computePh
  | .squareOp => .computePh
  | .addOp => .computePh
  | .plotOp => .plotPh
  | _ => .otherPh

/-- The position of a phase in the claimed order
open → select → compute → plot. -/
def rank : Phase → ℕ
  | .openPh => 0
  | .selectPh => 1
  | .computePh => 2
  | .plotPh => 3
  | .otherPh => 0

/-- The phases of a script's operations, in evaluation order, with the
phaseless operations dropped. -/
def phaseSeq (ss : List Stmt) : List Phase :=
  ((allOps ss).map phaseOf).filter (fun p => ¬ p = .otherPh)

/-- Whether a list of naturals never decreases. -/
def monotoneRanks : List ℕ → Bool
  | [] => true
  | [_] => true
  | a :: b :: rest => a ≤ b && monotoneRanks (b :: rest)

/-- Whether a script's phased operations occur in the strict order
open → select → compute → plot. -/
def phaseRanksMonotone (ss : List Stmt) : Bool :=
  monotoneRanks ((phaseSeq ss).map rank)

/-- Whether a script opens its dataset as its first phased operation
and never again. -/
def opensFirst (ss : List Stmt) : Bool :=
  match phaseSeq ss with
  | [] => false
  | p :: rest => p == .openPh && rest.all (fun q => ¬ q = .openPh)

/-! ## Claims settled by static analysis -/

/-- C2: the selection step is a single `xroms.argsel2d(ds.lon, ds.lat,
loc[0], loc[1])` call over `loc = [12.72, 68.35]`, binding the first
returned index to `y_idx` and the second to `x_idx`; the repository
defines no function of its own (in particular no nearest-neighbour
lookup), every dataset access at the found location subscripts in the
order `[y_idx, x_idx]`, and no access mentions those indices before the
call. -/
theorem argsel2d_sole_nearest_lookup_and_index_order :
    argselCalls (timeseriesScript ++ exampleThreddsScript) =
      [.argsel2d "lon" "lat" "loc" 0 1 "y_idx" "x_idx"] ∧
    (timeseriesScript.filter (fun s => s.ops.any (fun op =>
        match op with
        | .argsel2d _ _ _ _ _ _ _ => true
        | _ => false))).map Stmt.binds = [["y_idx", "x_idx"]] ∧
    (timeseriesScript.filter (fun s => s.binds.contains "loc")).map
        Stmt.listLit = [some [12.72, 68.35]] ∧
    ((timeseriesScript ++ exampleThreddsScript).countP
        (fun s => s.kind == SKind.funcDef)) = 0 ∧
    ((allOps (timeseriesScript ++ exampleThreddsScript)).all
        locAccessOrdered) = true ∧
    ((timeseriesScript.take 11).all
        (fun s => s.ops.all (fun op => !mentionsLocIdx op))) = true :=
  ⟨rfl, rfl, rfl, rfl, rfl, rfl⟩

/-- C4 counterexample: the phased operations of `timeseries.py` are not
in the order open → select → compute → plot: the plot on line 46
precedes the index selection on line 60 and all plots of lines 46-118
precede the derived-quantity computations of lines 137 and 143. -/
theorem timeseries_phase_order_violated :
    phaseRanksMonotone timeseriesScript = false := rfl

/-- C4 amended: both scripts are straight-line sequences (every
statement is plain: no branching, loops, try/except or function
definitions), and each opens its dataset as its first phased operation
and exactly once; but selection, computation and plotting interleave
instead of occurring in strictly sorted phases. -/
theorem scripts_straightline_and_open_first :
    ((timeseriesScript ++ exampleThreddsScript).all
        (fun s => s.kind == SKind.plain)) = true ∧
    opensFirst timeseriesScript = true ∧
    opensFirst exampleThreddsScript = true :=
  ⟨rfl, rfl, rfl⟩

/-- C6: each script calls `xr.open_dataset` exactly once, on its fixed
URL constant. -/
theorem open_dataset_called_once_with_fixed_url :
    openUrls timeseriesScript = [timeseriesUrl] ∧
    openUrls exampleThreddsScript = [exampleThreddsUrl] ∧
    timeseriesUrl =
      "https://thredds.met.no/thredds/dodsC/fou-hi/norkystv3_800m_m00_be" ∧
    exampleThreddsUrl =
      "https://thredds.met.no/thredds/dodsC/sea/norkyst800m/1h/aggregate_be" :=
  ⟨rfl, rfl, rfl, rfl⟩

/-- C7 counterexample: `example_thredds.py` line 20 reads the dataset's
grid-mapping variable through the CF accessor, an access outside the
claimed variable list, so the claimed list is not exactly the set of
variables read. -/
theorem grid_mapping_read_beyond_claimed_variables :
    (accessedVars (timeseriesScript ++ exampleThreddsScript)).contains
      (VarAccess.viaCF "grid_mapping") = true ∧
    claimedVars.contains (VarAccess.viaCF "grid_mapping") = false ∧
    ((accessedVars (timeseriesScript ++ exampleThreddsScript)).all
      (fun a => claimedVars.contains a)) = false :=
  ⟨rfl, rfl, rfl⟩

/-- C7 amended: the dataset variables the two scripts access are
exactly the claimed ones (temperature, salinity, the current and wind
components, depth, time, lon, lat, X, Y) together with the grid-mapping
variable read through the CF accessor. -/
theorem accessed_variables_are_claimed_plus_grid_mapping :
    ((accessedVars (timeseriesScript ++ exampleThreddsScript)).all
       (fun a =>
         (claimedVars ++ [VarAccess.viaCF "grid_mapping"]).contains a))
      = true ∧
    ((claimedVars ++ [VarAccess.viaCF "grid_mapping"]).all
       (fun a =>
         (accessedVars (timeseriesScript ++ exampleThreddsScript)).contains
           a)) = true :=
  ⟨rfl, rfl⟩

/-! ## Claims settled through the operational semantics -/

/-- Whether an operation writes to the dataset. -/
def Op.isMutate : Op → Bool
  | .mutateVar _ => true
  | _ => false

/-- Whether a library result is a success. -/
def isOkB : Except Err Val → Bool
  | .ok _ => true
  | .error _ => false

/-- A successful result carries a value. -/
theorem exists_ok {r : Except Err Val} (h : isOkB r = true) :
    ∃ v, r = .ok v := by
  cases r with
  | ok v => exact ⟨v, rfl⟩
  | error e => simp [isOkB] at h

/-- Inversion for a mapped success. -/
theorem except_map_ok {α β : Type} {e : Except Err α} {f : α → β} {b : β}
    (h : e.map f = .ok b) : ∃ a, e = .ok a ∧ b = f a := by
  cases e with
  | ok a =>
      refine ⟨a, rfl, ?_⟩
      simpa [Except.map] using h.symm
  | error err => simp [Except.map] at h

/-- A non-mutating operation leaves the dataset writes unchanged. -/
theorem execOp_preserves_dsWrites {o : Oracle} {c : Config} {op : Op}
    {v : Val} {c' : Config} (h : op.isMutate = false)
    (hexec : execOp o c op = .ok (v, c')) : c'.dsWrites = c.dsWrites := by
  cases op with
  | mutateVar w => simp [Op.isMutate] at h
  | readVar w idx =>
      rw [execOp] at hexec
      cases hl : c.dsWrites.lookup w with
      | some u =>
          rw [hl] at hexec
          cases hexec
          rfl
      | none =>
          rw [hl] at hexec
          obtain ⟨a, _, hb⟩ := except_map_ok hexec
          cases hb
          rfl
  | openDataset u =>
      obtain ⟨a, _, hb⟩ := except_map_ok (by simpa [execOp] using hexec)
      cases hb; rfl
  | iselOp args =>
      obtain ⟨a, _, hb⟩ := except_map_ok (by simpa [execOp] using hexec)
      cases hb; rfl
  | cfAccess attr =>
      obtain ⟨a, _, hb⟩ := except_map_ok (by simpa [execOp] using hexec)
      cases hb; rfl
  | argsel2d a1 a2 a3 a4 a5 a6 a7 =>
      obtain ⟨a, _, hb⟩ := except_map_ok (by simpa [execOp] using hexec)
      cases hb; rfl
  | figOp =>
      obtain ⟨a, _, hb⟩ := except_map_ok (by simpa [execOp] using hexec)
      cases hb; rfl
  | plotOp =>
      obtain ⟨a, _, hb⟩ := except_map_ok (by simpa [execOp] using hexec)
      cases hb; rfl
  | printOp =>
      obtain ⟨a, _, hb⟩ := except_map_ok (by simpa [execOp] using hexec)
      cases hb; rfl
  | sqrtOp =>
      obtain ⟨a, _, hb⟩ := except_map_ok (by simpa [execOp] using hexec)
      cases hb; rfl
  | squareOp =>
      obtain ⟨a, _, hb⟩ := except_map_ok (by simpa [execOp] using hexec)
      cases hb; rfl
  | addOp =>
      obtain ⟨a, _, hb⟩ := except_map_ok (by simpa [execOp] using hexec)
      cases hb; rfl
  | otherOp =>
      obtain ⟨a, _, hb⟩ := except_map_ok (by simpa [execOp] using hexec)
      cases hb; rfl

/-- A sequence of non-mutating operations leaves the dataset writes
unchanged, whether it succeeds or stops at a failure. -/
theorem runOps_preserves_dsWrites {o : Oracle} :
    ∀ {ops : List Op} {c : Config} {acc : List Val},
      (∀ op ∈ ops, op.isMutate = false) →
      ((runOps o ops c acc).1).dsWrites = c.dsWrites := by
  intro ops
  induction ops with
  | nil => intro c acc _; rfl
  | cons op rest ih =>
      intro c acc h
      rw [runOps]
      cases hexec : execOp o c op with
      | ok vc =>
          obtain ⟨v, c'⟩ := vc
          have hpres := execOp_preserves_dsWrites (h op (by simp)) hexec
          have htail :=
            @ih c' (acc ++ [v]) (fun op hm => h op (by simp [hm]))
          simpa [htail] using hpres
      | error e => rfl

/-- A statement whose operations do not mutate the dataset leaves the
dataset writes unchanged. -/
theorem execStmt_preserves_dsWrites {o : Oracle} {c : Config} {s : Stmt}
    (h : ∀ op ∈ s.ops, op.isMutate = false) :
    ((execStmt o c s).1).dsWrites = c.dsWrites := by
  rw [execStmt]
  cases hf : firstUnbound c.env s.uses with
  | some n => rfl
  | none =>
      have hro := @runOps_preserves_dsWrites o s.ops c [] h
      rcases hrun : runOps o s.ops c [] with ⟨c', err, vals⟩
      rw [hrun] at hro
      cases err with
      | some e =>
          by_cases hk : s.kind = .tryExcept <;> simp [hrun, hk] <;> exact hro
      | none => simpa [hrun] using hro

/-- Running statements whose operations never mutate the dataset
leaves the dataset writes unchanged. -/
theorem runStmts_preserves_dsWrites {o : Oracle} :
    ∀ {ss : List Stmt} {c : Config},
      (∀ s ∈ ss, ∀ op ∈ s.ops, op.isMutate = false) →
      ((runStmts o ss c).1).dsWrites = c.dsWrites := by
  intro ss
  induction ss with
  | nil => intro c _; rfl
  | cons s rest ih =>
      intro c h
      rw [runStmts]
      have hpres : ((execStmt o c s).1).dsWrites = c.dsWrites :=
        execStmt_preserves_dsWrites (h s (by simp))
      rcases hs : execStmt o c s with ⟨c', err⟩
      rw [hs] at hpres
      cases err with
      | none =>
          have htail := @ih c' (fun s hm op hop => h s (by simp [hm]) op hop)
          simpa [htail] using hpres
      | some e => exact hpres

/-- Splitting a run at a statement boundary. -/
theorem runStmts_append (o : Oracle) :
    ∀ (pre rest : List Stmt) (c : Config),
      runStmts o (pre ++ rest) c =
        match runStmts o pre c with
        | (c', none) => runStmts o rest c'
        | (c', some e) => (c', some e) := by
  intro pre
  induction pre with
  | nil => intro rest c; rfl
  | cons s pre ih =>
      intro rest c
      show runStmts o (s :: (pre ++ rest)) c = _
      rw [runStmts]
      rcases hs : execStmt o c s with ⟨c', err⟩
      cases err with
      | none => simp [runStmts, hs, ih]
      | some e => simp [runStmts, hs]

/-- C8: the opened dataset is read-only: for any library behaviour,
any starting state and any number of executed statements of either
script, the set of writes the script has applied to the dataset is
unchanged (both scripts also contain no dataset-mutating operation
syntactically). -/
theorem dataset_read_only_after_every_step :
    (∀ (o : Oracle) (c : Config) (n : ℕ),
      ((runStmts o (timeseriesScript.take n) c).1).dsWrites = c.dsWrites) ∧
    (∀ (o : Oracle) (c : Config) (n : ℕ),
      ((runStmts o (exampleThreddsScript.take n) c).1).dsWrites =
        c.dsWrites) ∧
    ((allOps (timeseriesScript ++ exampleThreddsScript)).all
      (fun op => !op.isMutate)) = true := by
  have hts : ∀ s ∈ timeseriesScript, ∀ op ∈ s.ops, op.isMutate = false := by
    decide
  have het : ∀ s ∈ exampleThreddsScript, ∀ op ∈ s.ops,
      op.isMutate = false := by decide
  refine ⟨?_, ?_, rfl⟩
  · intro o c n
    exact runStmts_preserves_dsWrites
      (fun s hm op hop => hts s (List.take_subset n _ hm) op hop)
  · intro o c n
    exact runStmts_preserves_dsWrites
      (fun s hm op hop => het s (List.take_subset n _ hm) op hop)

/-- C9: execution is deterministic: two runs of either script from the
same state over the same dataset contents and library behaviour end in
the same outcome. -/
theorem script_execution_deterministic :
    (∀ (o : Oracle) (c : Config) (r1 r2 : Config × Option Err),
      RunsTo o timeseriesScript c r1 → RunsTo o timeseriesScript c r2 →
      r1 = r2) ∧
    (∀ (o : Oracle) (c : Config) (r1 r2 : Config × Option Err),
      RunsTo o exampleThreddsScript c r1 →
      RunsTo o exampleThreddsScript c r2 → r1 = r2) :=
  ⟨fun o _ _ _ h1 h2 => runsTo_det o h1 h2,
   fun o _ _ _ h1 h2 => runsTo_det o h1 h2⟩

/-- A library behaviour on which every operation succeeds. -/
def okOracle : Oracle := fun _ => .ok .unit

/-- A library behaviour on which every operation fails. -/
def failOracle : Oracle := fun _ => .error (.libError 0)

/-- Concrete instantiation of `script_execution_deterministic`. -/
theorem script_execution_deterministic_witness :
    runStmts okOracle timeseriesScript {} =
      runStmts okOracle timeseriesScript {} ∧
    runStmts okOracle exampleThreddsScript {} =
      runStmts okOracle exampleThreddsScript {} :=
  ⟨script_execution_deterministic.1 okOracle {} _ _
      (runStmts_runsTo okOracle timeseriesScript {})
      (runStmts_runsTo okOracle timeseriesScript {}),
   script_execution_deterministic.2 okOracle {} _ _
      (runStmts_runsTo okOracle exampleThreddsScript {})
      (runStmts_runsTo okOracle exampleThreddsScript {})⟩

/-- C3: under any library behaviour in which every underlying call
succeeds, running `timeseries.py` top to bottom fails with a
`NameError` on the name `xroms` at the nearest-grid-point lookup
(statement index 11, line 60); the statements after that call never
execute (the run of the whole script equals the run of its first 12
statements); the import block binds only the numpy, matplotlib,
cartopy and xarray names, and no statement of the script ever binds
`xroms`. -/
theorem timeseries_fails_with_name_error_xroms
    (o : Oracle) (h : ∀ op, isOkB (o op) = true) :
    (runStmts o timeseriesScript {}).2 = some (.nameError "xroms") ∧
    runStmts o timeseriesScript {} =
      runStmts o (timeseriesScript.take 12) {} ∧
    ((timeseriesScript.take 6).map Stmt.binds).flatten =
      ["np", "plt", "ccrs", "cfeature",
       "LONGITUDE_FORMATTER", "LATITUDE_FORMATTER", "xr"] ∧
    ((timeseriesScript.map Stmt.binds).flatten).contains "xroms" = false := by
  obtain ⟨vOpen, hOpen⟩ := exists_ok (h (.openDataset timeseriesUrl))
  obtain ⟨vTemp, hTemp⟩ := exists_ok (h (.readVar "temperature" []))
  obtain ⟨vIsel, hIsel⟩ := exists_ok
    (h (.iselOp [("time", .slice 0 100), ("X", .int 1000),
                 ("Y", .int 1000), ("depth", .int 0)]))
  obtain ⟨vPlot, hPlot⟩ := exists_ok (h .plotOp)
  refine ⟨?_, ?_, rfl, rfl⟩
  · simp [timeseriesScript, runStmts, execStmt, firstUnbound, runOps,
          execOp, bindAll, Except.map, List.lookup, hOpen, hTemp, hIsel,
          hPlot]
  · simp [timeseriesScript, runStmts, execStmt, firstUnbound, runOps,
          execOp, bindAll, Except.map, List.lookup, hOpen, hTemp, hIsel,
          hPlot]

/-- Concrete instantiation of `timeseries_fails_with_name_error_xroms`
at the all-succeeding library behaviour. -/
theorem timeseries_name_error_witness :
    (runStmts okOracle timeseriesScript {}).2 =
      some (.nameError "xroms") :=
  (timeseries_fails_with_name_error_xroms okOracle (fun _ => rfl)).1

/-- C5: neither script contains a try/except statement, and any
failure of an underlying library operation at any reached statement
propagates unchanged as the outcome of the whole script. -/
theorem no_catch_and_library_errors_propagate :
    ((timeseriesScript ++ exampleThreddsScript).countP
        (fun s => s.kind == SKind.tryExcept)) = 0 ∧
    (∀ (o : Oracle) (c c' c'' : Config) (pre rest : List Stmt) (s : Stmt)
        (e : Err) (vals : List Val),
      timeseriesScript = pre ++ s :: rest →
      runStmts o pre c = (c', none) →
      firstUnbound c'.env s.uses = none →
      runOps o s.ops c' [] = (c'', some e, vals) →
      runStmts o timeseriesScript c = (c'', some e)) ∧
    (∀ (o : Oracle) (c c' c'' : Config) (pre rest : List Stmt) (s : Stmt)
        (e : Err) (vals : List Val),
      exampleThreddsScript = pre ++ s :: rest →
      runStmts o pre c = (c', none) →
      firstUnbound c'.env s.uses = none →
      runOps o s.ops c' [] = (c'', some e, vals) →
      runStmts o exampleThreddsScript c = (c'', some e)) := by
  have hts : ∀ x ∈ timeseriesScript, x.kind = SKind.plain := by decide
  have het : ∀ x ∈ exampleThreddsScript, x.kind = SKind.plain := by decide
  refine ⟨rfl, ?_, ?_⟩
  · intro o c c' c'' pre rest s e vals hsplit hpre hname hops
    have hmem : s ∈ timeseriesScript := by
      rw [hsplit]
      exact List.mem_append.mpr (Or.inr (List.mem_cons_self _ _))
    have hkind : s.kind = SKind.plain := hts s hmem
    have hstmt : execStmt o c' s = (c'', some e) := by
      rw [execStmt, hname, hops, hkind]
      rfl
    rw [hsplit, runStmts_append o pre (s :: rest) c, hpre]
    simp [runStmts, hstmt]
  · intro o c c' c'' pre rest s e vals hsplit hpre hname hops
    have hmem : s ∈ exampleThreddsScript := by
      rw [hsplit]
      exact List.mem_append.mpr (Or.inr (List.mem_cons_self _ _))
    have hkind : s.kind = SKind.plain := het s hmem
    have hstmt : execStmt o c' s = (c'', some e) := by
      rw [execStmt, hname, hops, hkind]
      rfl
    rw [hsplit, runStmts_append o pre (s :: rest) c, hpre]
    simp [runStmts, hstmt]

/-- Concrete instantiation of `no_catch_and_library_errors_propagate`:
with every library call failing, the failure of the `xr.open_dataset`
call on line 37 is the outcome of the whole of `timeseries.py`. -/
theorem library_error_propagation_witness :
    runStmts failOracle timeseriesScript {} =
      ((runStmts failOracle (timeseriesScript.take 7) {}).1,
        some (.libError 0)) :=
  no_catch_and_library_errors_propagate.2.1 failOracle {}
    (runStmts failOracle (timeseriesScript.take 7) {}).1
    (runStmts failOracle (timeseriesScript.take 7) {}).1
    (timeseriesScript.take 7) (timeseriesScript.drop 8)
    (timeseriesScript.get ⟨7, by decide⟩) (.libError 0) []
    rfl rfl rfl rfl
